import Mathlib

/-!
Verification of the NLP query-engine front-end core: the asynchronous
ingestion-job poller, upload validation, query submission error handling,
result classification (hybrid / help rendering), and the CSV exporter.

Shallow embedding conventions:
* JavaScript strings that only ever get compared to literals are `String`;
  strings that are split / trimmed / lowercased character by character are
  modelled as `List Char` (`JStr`) so every operation is computable.
* JavaScript truthiness of an optional string (`!x` / `x || d`) is modelled
  explicitly: `none` and `some ""` are falsy.
* A thrown exception / faulting property access is modelled as `Option`
  with `none` for the fault.
-/

/-- JavaScript string modelled as its character sequence. -/
abbrev JStr := List Char

/-- JS truthiness of an optional string value: `undefined`/`null` and the
empty string are falsy. -/
def jsTruthyStr : Option String → Bool
  | none => false
  | some s => s != ""

/-- JS `v || fallback` on an optional string: the fallback is used when the
value is absent or the empty string (both falsy). -/
def jsOr (v : Option String) (fallback : String) : String :=
  match v with
  | none => fallback
  | some s => if s = "" then fallback else s

/-! ## Job status polling (DatabaseConnector.pollConnectionStatus,
DocumentUploader.pollUploadStatus)

Both pollers issue `GET /api/ingestion-status/{jobId}` and branch on the
response.  A poll response is either a rejected fetch (`netError`), a non-2xx
HTTP response (`httpError`), or a parsed JSON body. -/

/-- Parsed body of a 2xx `/api/ingestion-status/{jobId}` response. -/
structure StatusBody where
  status : String
  progress : Option Nat
  schema : Option String
  message : Option String
deriving DecidableEq, Repr

/-- Outcome of one status fetch as seen by the poller. -/
inductive PollResponse
  | netError
  | httpError
  | ok (body : StatusBody)
deriving DecidableEq, Repr

/-- Spec-level job status; `Processing` is the initial state. -/
inductive JobStatus
  | processing
  | completed
  | failed
deriving DecidableEq, Repr

/-- Observable side effects of one `pollConnectionStatus` invocation:
`deliverSchema` is the `onConnectionSuccess(data.schema)` callback,
`deliverFailed` is `setError(...)`, `schedule` is
`setTimeout(() => pollConnectionStatus(jobId), delayMs)`. -/
inductive ConnEvent
  | deliverSchema (schema : Option String)
  | deliverFailed (msg : String)
  | schedule (delayMs : Nat)
deriving DecidableEq, Repr

/-- State the connection poller maintains for one job. -/
structure ConnState where
  status : JobStatus
  error : Option String
deriving DecidableEq, Repr

/-- One step of `DatabaseConnector.pollConnectionStatus` (part_000 lines
391-415): branches exactly as the source does on the fetch outcome and on
`data.status`. -/
def pollConnectionStep (s : ConnState) (r : PollResponse) :
    ConnState × List ConnEvent :=
  match r with
  | .netError =>
      ({ status := .failed, error := some "Network error while checking status" },
       [.deliverFailed "Network error while checking status"])
  | .httpError =>
      ({ status := .failed, error := some "Failed to check connection status" },
       [.deliverFailed "Failed to check connection status"])
  | .ok body =>
      if body.status = "completed" then
        ({ status := .completed, error := s.error }, [.deliverSchema body.schema])
      else if body.status = "failed" then
        ({ status := .failed, error := some (jsOr body.message "Connection failed") },
         [.deliverFailed (jsOr body.message "Connection failed")])
      else
        (s, [.schedule 1000])

/-- Run of the connection poller over a sequence of responses: a further
response is consumed only while the job is still `processing` (the source
only reissues the fetch from the `setTimeout` in the still-processing
branch). -/
def pollConnectionRun (s : ConnState) : List PollResponse → ConnState × List ConnEvent
  | [] => (s, [])
  | r :: rs =>
      if (pollConnectionStep s r).1.status = .processing then
        ((pollConnectionRun (pollConnectionStep s r).1 rs).1,
         (pollConnectionStep s r).2 ++ (pollConnectionRun (pollConnectionStep s r).1 rs).2)
      else
        pollConnectionStep s r

/-- Observable side effects of one `pollUploadStatus` invocation:
`deliverCount` is the `onDocumentsUploaded(totalFiles)` callback. -/
inductive UploadEvent
  | deliverCount (n : Nat)
  | deliverFailed (msg : String)
  | schedule (delayMs : Nat)
deriving DecidableEq, Repr

/-- State the upload poller maintains for one job. -/
structure UploadState where
  status : JobStatus
  progress : Nat
  error : Option String
deriving DecidableEq, Repr

/-- One step of `DocumentUploader.pollUploadStatus` (part_001 lines 105-146).
On a 2xx body the source first runs `setUploadProgress(data.progress || 0)`,
then branches on `data.status`; the completed branch forces progress 100. -/
def pollUploadStep (totalFiles : Nat) (s : UploadState) (r : PollResponse) :
    UploadState × List UploadEvent :=
  match r with
  | .netError =>
      ({ status := .failed, progress := s.progress,
         error := some "Network error while checking status" },
       [.deliverFailed "Network error while checking status"])
  | .httpError =>
      ({ status := .failed, progress := s.progress,
         error := some "Failed to check upload status" },
       [.deliverFailed "Failed to check upload status"])
  | .ok body =>
      let p := body.progress.getD 0
      if body.status = "completed" then
        ({ status := .completed, progress := 100, error := s.error },
         [.deliverCount totalFiles])
      else if body.status = "failed" then
        ({ status := .failed, progress := p,
           error := some (jsOr body.message "Upload failed") },
         [.deliverFailed (jsOr body.message "Upload failed")])
      else
        ({ status := .processing, progress := p, error := s.error },
         [.schedule 1000])

/-- Run of the upload poller over a sequence of responses. -/
def pollUploadRun (totalFiles : Nat) (s : UploadState) :
    List PollResponse → UploadState × List UploadEvent
  | [] => (s, [])
  | r :: rs =>
      if (pollUploadStep totalFiles s r).1.status = .processing then
        ((pollUploadRun totalFiles (pollUploadStep totalFiles s r).1 rs).1,
         (pollUploadStep totalFiles s r).2 ++
           (pollUploadRun totalFiles (pollUploadStep totalFiles s r).1 rs).2)
      else
        pollUploadStep totalFiles s r

/-- Terminal-callback events of the connection poller (everything except a
`schedule`). -/
def connDeliveryCount (evs : List ConnEvent) : Nat :=
  (evs.filter fun e =>
    match e with
    | .schedule _ => false
    | _ => true).length

/-- Terminal-callback events of the upload poller (everything except a
`schedule`). -/
def uploadDeliveryCount (evs : List UploadEvent) : Nat :=
  (evs.filter fun e =>
    match e with
    | .schedule _ => false
    | _ => true).length

lemma connDeliveryCount_append (a b : List ConnEvent) :
    connDeliveryCount (a ++ b) = connDeliveryCount a + connDeliveryCount b := by
  simp [connDeliveryCount, List.filter_append]

lemma uploadDeliveryCount_append (a b : List UploadEvent) :
    uploadDeliveryCount (a ++ b) = uploadDeliveryCount a + uploadDeliveryCount b := by
  simp [uploadDeliveryCount, List.filter_append]

/-- In one connection-poll step, at most one terminal callback fires, and
none fires when the step leaves the job processing. -/
lemma connStep_deliveries (s : ConnState) (r : PollResponse) :
    connDeliveryCount (pollConnectionStep s r).2 ≤ 1 ∧
    ((pollConnectionStep s r).1.status = .processing →
      connDeliveryCount (pollConnectionStep s r).2 = 0) := by
  cases r with
  | netError => simp [pollConnectionStep, connDeliveryCount]
  | httpError => simp [pollConnectionStep, connDeliveryCount]
  | ok body =>
      by_cases h1 : body.status = "completed"
      · simp [pollConnectionStep, h1, connDeliveryCount]
      · by_cases h2 : body.status = "failed"
        · simp [pollConnectionStep, h1, h2, connDeliveryCount]
        · simp [pollConnectionStep, h1, h2, connDeliveryCount]

/-- In one upload-poll step, at most one terminal callback fires, and none
fires when the step leaves the job processing. -/
lemma uploadStep_deliveries (tf : Nat) (s : UploadState) (r : PollResponse) :
    uploadDeliveryCount (pollUploadStep tf s r).2 ≤ 1 ∧
    ((pollUploadStep tf s r).1.status = .processing →
      uploadDeliveryCount (pollUploadStep tf s r).2 = 0) := by
  cases r with
  | netError => simp [pollUploadStep, uploadDeliveryCount]
  | httpError => simp [pollUploadStep, uploadDeliveryCount]
  | ok body =>
      by_cases h1 : body.status = "completed"
      · simp [pollUploadStep, h1, uploadDeliveryCount]
      · by_cases h2 : body.status = "failed"
        · simp [pollUploadStep, h1, h2, uploadDeliveryCount]
        · simp [pollUploadStep, h1, h2, uploadDeliveryCount]

/-- Over any whole run of the connection poller, at most one terminal
callback fires. -/
lemma connRun_deliveries (rs : List PollResponse) :
    ∀ s, connDeliveryCount (pollConnectionRun s rs).2 ≤ 1 := by
  induction rs with
  | nil => intro s; simp [pollConnectionRun, connDeliveryCount]
  | cons r rs ih =>
      intro s
      by_cases h : (pollConnectionStep s r).1.status = .processing
      · rw [pollConnectionRun, if_pos h]
        have h0 := (connStep_deliveries s r).2 h
        calc connDeliveryCount ((pollConnectionStep s r).2 ++
                  (pollConnectionRun (pollConnectionStep s r).1 rs).2)
            = connDeliveryCount (pollConnectionStep s r).2 +
              connDeliveryCount (pollConnectionRun (pollConnectionStep s r).1 rs).2 :=
              connDeliveryCount_append _ _
          _ ≤ 1 := by rw [h0]; simpa using ih (pollConnectionStep s r).1
      · rw [pollConnectionRun, if_neg h]
        exact (connStep_deliveries s r).1

/-- Over any whole run of the upload poller, at most one terminal callback
fires. -/
lemma uploadRun_deliveries (tf : Nat) (rs : List PollResponse) :
    ∀ s, uploadDeliveryCount (pollUploadRun tf s rs).2 ≤ 1 := by
  induction rs with
  | nil => intro s; simp [pollUploadRun, uploadDeliveryCount]
  | cons r rs ih =>
      intro s
      by_cases h : (pollUploadStep tf s r).1.status = .processing
      · rw [pollUploadRun, if_pos h]
        have h0 := (uploadStep_deliveries tf s r).2 h
        calc uploadDeliveryCount ((pollUploadStep tf s r).2 ++
                  (pollUploadRun tf (pollUploadStep tf s r).1 rs).2)
            = uploadDeliveryCount (pollUploadStep tf s r).2 +
              uploadDeliveryCount (pollUploadRun tf (pollUploadStep tf s r).1 rs).2 :=
              uploadDeliveryCount_append _ _
          _ ≤ 1 := by rw [h0]; simpa using ih (pollUploadStep tf s r).1
      · rw [pollUploadRun, if_neg h]
        exact (uploadStep_deliveries tf s r).1

/-- C1: for every sequence of poll responses for one ingestion job, a
`completed` response transitions the job to Completed and delivers the
payload (schema for the connection poller, file count for the upload
poller) exactly once; a `failed` response transitions to Failed and
delivers the message exactly once; any other status leaves the job
Processing, updates progress when present, and schedules exactly one
further status request after a fixed 1000 ms delay; and over any run each
poller fires at most one terminal callback. -/
theorem C1_poller_lifecycle (tf : Nat) (s : UploadState) (c : ConnState)
    (st : String) (prog : Option Nat) (p : Nat) (sch : Option String)
    (msg : Option String) (rs : List PollResponse)
    (hs : s.status = .processing) (hc : c.status = .processing)
    (h1 : st ≠ "completed") (h2 : st ≠ "failed") :
    pollUploadStep tf s (.ok ⟨"completed", prog, sch, msg⟩) =
      ({ status := .completed, progress := 100, error := s.error },
       [.deliverCount tf]) ∧
    pollConnectionStep c (.ok ⟨"completed", prog, sch, msg⟩) =
      ({ status := .completed, error := c.error }, [.deliverSchema sch]) ∧
    pollUploadStep tf s (.ok ⟨"failed", prog, sch, msg⟩) =
      ({ status := .failed, progress := prog.getD 0,
         error := some (jsOr msg "Upload failed") },
       [.deliverFailed (jsOr msg "Upload failed")]) ∧
    pollConnectionStep c (.ok ⟨"failed", prog, sch, msg⟩) =
      ({ status := .failed, error := some (jsOr msg "Connection failed") },
       [.deliverFailed (jsOr msg "Connection failed")]) ∧
    pollUploadStep tf s (.ok ⟨st, some p, sch, msg⟩) =
      ({ status := .processing, progress := p, error := s.error },
       [.schedule 1000]) ∧
    pollConnectionStep c (.ok ⟨st, some p, sch, msg⟩) = (c, [.schedule 1000]) ∧
    uploadDeliveryCount (pollUploadRun tf s rs).2 ≤ 1 ∧
    connDeliveryCount (pollConnectionRun c rs).2 ≤ 1 := by
  refine ⟨?_, ?_, ?_, ?_, ?_, ?_, ?_, ?_⟩
  · simp [pollUploadStep]
  · simp [pollConnectionStep]
  · simp [pollUploadStep]
  · simp [pollConnectionStep]
  · simp [pollUploadStep, h1, h2]
  · simp [pollConnectionStep, h1, h2]
  · exact uploadRun_deliveries tf rs s
  · exact connRun_deliveries rs c

/-- C1 witness: the theorem applied to a concrete processing job with a
concrete intermediate status, then the completed branch evaluated. -/
theorem C1_poller_lifecycle_witness :
    pollUploadStep 3 ⟨.processing, 0, none⟩
        (.ok ⟨"completed", some 40, some "schema", none⟩) =
      ({ status := .completed, progress := 100, error := none },
       [.deliverCount 3]) :=
  (C1_poller_lifecycle 3 ⟨.processing, 0, none⟩ ⟨.processing, none⟩
    "analyzing" (some 40) 40 (some "schema") none
    [.ok ⟨"processing", some 40, none, none⟩,
     .ok ⟨"completed", none, some "schema", none⟩]
    rfl rfl (by decide) (by decide)).1

/-- C4: a transport error on the status request (rejected fetch or non-2xx
response) is terminal for both pollers: the job is marked Failed with a
generic could-not-check-status message, the step schedules nothing, and
the run stops (later responses are never consumed). -/
theorem C4_transport_error_terminal (tf : Nat) (s : UploadState)
    (c : ConnState) (rs : List PollResponse) :
    pollUploadStep tf s .netError =
      ({ status := .failed, progress := s.progress,
         error := some "Network error while checking status" },
       [.deliverFailed "Network error while checking status"]) ∧
    pollUploadStep tf s .httpError =
      ({ status := .failed, progress := s.progress,
         error := some "Failed to check upload status" },
       [.deliverFailed "Failed to check upload status"]) ∧
    pollConnectionStep c .netError =
      ({ status := .failed,
         error := some "Network error while checking status" },
       [.deliverFailed "Network error while checking status"]) ∧
    pollConnectionStep c .httpError =
      ({ status := .failed,
         error := some "Failed to check connection status" },
       [.deliverFailed "Failed to check connection status"]) ∧
    pollUploadRun tf s (.netError :: rs) = pollUploadRun tf s [.netError] ∧
    pollUploadRun tf s (.httpError :: rs) = pollUploadRun tf s [.httpError] ∧
    pollConnectionRun c (.netError :: rs) = pollConnectionRun c [.netError] ∧
    pollConnectionRun c (.httpError :: rs) = pollConnectionRun c [.httpError] := by
  refine ⟨rfl, rfl, rfl, rfl, ?_, ?_, ?_, ?_⟩
  · rw [pollUploadRun, pollUploadRun]
    simp [pollUploadStep]
  · rw [pollUploadRun, pollUploadRun]
    simp [pollUploadStep]
  · rw [pollConnectionRun, pollConnectionRun]
    simp [pollConnectionStep]
  · rw [pollConnectionRun, pollConnectionRun]
    simp [pollConnectionStep]

/-! ## Query submission (App.handleQuerySubmit, part_000 lines 64-97) and
error-detail surfacing (DatabaseConnector.handleConnect, part_000 lines
376-388; DocumentUploader.uploadFiles, part_001 lines 90-102)

A fetch resolves to a network rejection, a non-2xx response whose JSON body
may carry a `detail` field, or a 2xx body. -/

/-- Outcome of one fetch as seen by a request handler. -/
inductive FetchOutcome (β : Type)
  | netError
  | bad (detail : Option String)
  | ok (body : β)
deriving DecidableEq, Repr

/-- The query result value handed to the results view. -/
structure QueryResult where
  query_type : String
  results : List String
  error : Option String
deriving DecidableEq, Repr

/-- `App.handleQuerySubmit`: on a 2xx response the parsed body is stored
verbatim; on a non-2xx response it stores a synthesized error result without
reading the body; on a rejected fetch it stores a synthesized network-error
result.  In every case the caller receives a value, never an exception. -/
def handleQuerySubmit : FetchOutcome QueryResult → QueryResult
  | .netError =>
      { query_type := "error", results := [],
        error := some "Network error occurred" }
  | .bad _ =>
      { query_type := "error", results := [],
        error := some "Query processing failed" }
  | .ok r => r

/-- `DatabaseConnector.handleConnect` non-2xx branch:
`setError(data.detail || 'Connection failed')`. -/
def connectErrorMessage (detail : Option String) : String :=
  jsOr detail "Connection failed"

/-- `DocumentUploader.uploadFiles` non-2xx branch:
`setError(data.detail || 'Upload failed')`. -/
def uploadErrorMessage (detail : Option String) : String :=
  jsOr detail "Upload failed"

/-- The error message a failed query submission surfaces: the `error` field
of the stored synthesized result. -/
def querySubmitErrorMessage (detail : Option String) : String :=
  (handleQuerySubmit (.bad detail)).error.getD ""

/-- C3: a rejected query fetch resolves to the synthesized value
`{query_type: error, results: [], error: "Network error occurred"}`; a
non-2xx response resolves to an error-typed result with empty results (and
a generic message), whatever the body's detail; a 2xx body is passed
through.  Every query attempt resolves to a displayable `QueryResult`. -/
theorem C3_query_error_synthesis (detail : Option String) (r : QueryResult) :
    handleQuerySubmit .netError =
      { query_type := "error", results := [],
        error := some "Network error occurred" } ∧
    (handleQuerySubmit (.bad detail)).query_type = "error" ∧
    (handleQuerySubmit (.bad detail)).results = [] ∧
    (handleQuerySubmit (.bad detail)).error = some "Query processing failed" ∧
    handleQuerySubmit (.ok r) = r :=
  ⟨rfl, rfl, rfl, rfl, rfl⟩

/-- C7 counterexample: when a query submission receives a non-2xx response
whose body carries `detail: "Boom"`, the surfaced message is the generic
"Query processing failed", not "Boom" — the detail-surfacing rule does not
apply to query submission, so it is not uniform across the operations. -/
theorem C7_counterexample :
    querySubmitErrorMessage (some "Boom") ≠ "Boom" ∧
    connectErrorMessage (some "Boom") = "Boom" ∧
    uploadErrorMessage (some "Boom") = "Boom" := by
  refine ⟨?_, by decide, by decide⟩
  decide

/-- C7 amended: database connect and document upload surface the response
body's `detail` field when it is present and non-empty, and fall back to
their generic strings when it is absent or empty; query submission ignores
the body entirely and always surfaces the generic "Query processing
failed". -/
theorem C7_error_detail_surfacing (detail : Option String) (s : String)
    (hs : s ≠ "") :
    connectErrorMessage (some s) = s ∧
    uploadErrorMessage (some s) = s ∧
    connectErrorMessage none = "Connection failed" ∧
    uploadErrorMessage none = "Upload failed" ∧
    connectErrorMessage (some "") = "Connection failed" ∧
    uploadErrorMessage (some "") = "Upload failed" ∧
    querySubmitErrorMessage detail = "Query processing failed" := by
  refine ⟨?_, ?_, rfl, rfl, rfl, rfl, rfl⟩
  · simp [connectErrorMessage, jsOr, hs]
  · simp [uploadErrorMessage, jsOr, hs]

/-- C7 witness: the amended theorem applied at a concrete non-empty detail
string. -/
theorem C7_error_detail_surfacing_witness :
    connectErrorMessage (some "Boom") = "Boom" :=
  (C7_error_detail_surfacing (some "anything") "Boom" (by decide)).1

/-! ## Character-level string operations

`jsSplit` is JavaScript `String.prototype.split` with a single-character
separator; `jsTrim` is `String.prototype.trim`.  Both are modelled over
`JStr` so they compute by kernel reduction. -/

/-- JS `s.split(sep)` for a one-character separator: always returns at
least one (possibly empty) piece. -/
def jsSplit (sep : Char) : JStr → List JStr
  | [] => [[]]
  | c :: cs =>
      if c = sep then [] :: jsSplit sep cs
      else (c :: (jsSplit sep cs).headD []) :: (jsSplit sep cs).tail

/-- JS `s.trim()`: strip leading and trailing whitespace. -/
def jsTrim (s : JStr) : JStr :=
  ((s.dropWhile Char.isWhitespace).reverse.dropWhile Char.isWhitespace).reverse

lemma jsSplit_ne_nil (sep : Char) (s : JStr) : jsSplit sep s ≠ [] := by
  cases s with
  | nil => simp [jsSplit]
  | cons c cs =>
      by_cases h : c = sep
      · simp [jsSplit, h]
      · simp [jsSplit, h]

/-- A piece free of the separator splits to itself alone. -/
lemma jsSplit_of_not_mem (sep : Char) (p : JStr) (hp : sep ∉ p) :
    jsSplit sep p = [p] := by
  induction p with
  | nil => rfl
  | cons c cs ih =>
      have hc : c ≠ sep := fun h => hp (h ▸ List.mem_cons_self c cs)
      have hcs : sep ∉ cs := fun h => hp (List.mem_cons_of_mem c h)
      simp [jsSplit, hc, ih hcs]

/-- Splitting a separator-free piece followed by a separator peels off the
piece. -/
lemma jsSplit_append_cons (sep : Char) (p t : JStr) (hp : sep ∉ p) :
    jsSplit sep (p ++ sep :: t) = p :: jsSplit sep t := by
  induction p with
  | nil => simp [jsSplit]
  | cons c cs ih =>
      have hc : c ≠ sep := fun h => hp (h ▸ List.mem_cons_self c cs)
      have hcs : sep ∉ cs := fun h => hp (List.mem_cons_of_mem c h)
      simp [jsSplit, hc, ih hcs, jsSplit_ne_nil]

/-- Joining separator-free pieces with the separator and splitting again is
the identity (on a non-empty piece list). -/
lemma jsSplit_intercalate (sep : Char) (pieces : List JStr)
    (hne : pieces ≠ []) (hp : ∀ p ∈ pieces, sep ∉ p) :
    jsSplit sep (List.intercalate [sep] pieces) = pieces := by
  induction pieces with
  | nil => exact absurd rfl hne
  | cons p rest ih =>
      cases rest with
      | nil =>
          have : List.intercalate [sep] [p] = p := by
            simp [List.intercalate]
          rw [this]
          exact jsSplit_of_not_mem sep p (hp p (List.mem_cons_self p []))
      | cons q rest2 =>
          have hstep : List.intercalate [sep] (p :: q :: rest2) =
              p ++ sep :: List.intercalate [sep] (q :: rest2) := by
            simp [List.intercalate, List.intersperse]
          rw [hstep,
            jsSplit_append_cons sep p _ (hp p (List.mem_cons_self p _)),
            ih (by simp) (fun x hx => hp x (List.mem_cons_of_mem p hx))]

/-! ## Pre-network validation (DatabaseConnector.handleConnect, part_000
lines 355-389; QueryPanel.handleSubmit, part_002 lines 111-118) -/

/-- Body of `POST /api/connect-database`; constructing it is the only way
`handleConnect` reaches the network. -/
structure ConnectRequest where
  connection_string : JStr
  test_connection : Bool
deriving DecidableEq, Repr

/-- `DatabaseConnector.handleConnect`, validation and request construction:
`if (!connectionString.trim()) { setError(...); return; }` guards the fetch;
on the valid path the untrimmed string is sent verbatim with
`test_connection: true`.  `.error` means the function returned before any
network call. -/
def handleConnect (connectionString : JStr) : Except String ConnectRequest :=
  if jsTrim connectionString = [] then
    .error "Please enter a connection string"
  else
    .ok { connection_string := connectionString, test_connection := true }

/-- Payload of `onQuerySubmit`, which is what triggers the query fetch. -/
structure QuerySubmission where
  query : JStr
deriving DecidableEq, Repr

/-- `QueryPanel.handleSubmit`: `if (query.trim() && !isLoading)
onQuerySubmit({query: query.trim()})`; otherwise nothing happens and no
request is issued (`none`). -/
def handleSubmit (query : JStr) (isLoading : Bool) : Option QuerySubmission :=
  if !(jsTrim query).isEmpty && !isLoading then
    some { query := jsTrim query }
  else
    none

/-- C8: an empty or whitespace-only connection string is rejected with a
validation message before any network call; a query that is empty after
trimming is never submitted; and no query is submitted while one is in
flight.  In each case zero network requests are issued (`Except.error` /
`none` are the no-request outcomes). -/
theorem C8_validation_before_network (cs q : JStr) (b : Bool)
    (hcs : jsTrim cs = []) (hq : jsTrim q = []) :
    handleConnect cs = .error "Please enter a connection string" ∧
    handleSubmit q b = none ∧
    (∀ q2, handleSubmit q2 true = none) := by
  refine ⟨?_, ?_, ?_⟩
  · simp [handleConnect, hcs]
  · simp [handleSubmit, hq]
  · intro q2
    simp [handleSubmit]

/-- C8 witness: the theorem applied to a whitespace-only connection string
and a tab-only query. -/
theorem C8_validation_before_network_witness :
    handleConnect [' ', ' ', ' '] = .error "Please enter a connection string" :=
  (C8_validation_before_network [' ', ' ', ' '] ['\t'] false
    (by decide) (by decide)).1

/-! ## Document upload validation (DocumentUploader.handleFiles, part_001
lines 42-73) -/

/-- A selected file as the uploader sees it: its name and byte size. -/
structure JsFile where
  name : JStr
  size : Nat
deriving DecidableEq, Repr

/-- The `ext` fields of `DocumentUploader.supportedTypes`. -/
def supportedTypes : List JStr :=
  [['.', 'p', 'd', 'f'], ['.', 'd', 'o', 'c', 'x'], ['.', 't', 'x', 't'],
   ['.', 'c', 's', 'v'], ['.', 'j', 's', 'o', 'n']]

/-- `'.' + file.name.split('.').pop().toLowerCase()`: the dot plus the
lowercased last dot-separated segment of the name.  For a dotless name the
whole name becomes the "extension". -/
def fileExtension (name : JStr) : JStr :=
  '.' :: ((jsSplit '.' name).getLastD []).map Char.toLower

/-- `supportedTypes.some(type => type.ext === extension)`. -/
def isSupported (f : JsFile) : Bool :=
  supportedTypes.contains (fileExtension f.name)

/-- `file.size <= 10 * 1024 * 1024`. -/
def isValidSize (f : JsFile) : Bool :=
  f.size ≤ 10 * 1024 * 1024

/-- A file passes validation when both checks pass. -/
def validFile (f : JsFile) : Bool :=
  isSupported f && isValidSize f

/-- One entry of the `invalidFiles` report. -/
structure FileIssue where
  name : JStr
  issue : String
deriving DecidableEq, Repr

/-- The per-file report pushed for a rejected file: the type issue when the
extension check failed, otherwise the size issue. -/
def fileIssue (f : JsFile) : FileIssue :=
  { name := f.name,
    issue := if !(isSupported f) then "Unsupported file type"
             else "File too large (max 10MB)" }

/-- The `files.forEach` loop of `handleFiles`: each file is pushed onto
`validFiles` or onto `invalidFiles`, in input order. -/
def partitionFiles : List JsFile → List JsFile × List FileIssue
  | [] => ([], [])
  | f :: fs =>
      if validFile f then
        (f :: (partitionFiles fs).1, (partitionFiles fs).2)
      else
        ((partitionFiles fs).1, fileIssue f :: (partitionFiles fs).2)

/-- `DocumentUploader.handleFiles`: empty selections return immediately;
otherwise the valid files (if any) become the multipart upload request and
the invalid files become the error report.  `none` means no network request
is issued. -/
def handleFiles (files : List JsFile) : Option (List JsFile) × List FileIssue :=
  if files.isEmpty then (none, [])
  else
    (if (partitionFiles files).1.isEmpty then none
     else some (partitionFiles files).1,
     (partitionFiles files).2)

/-- Modelled from the spec: the conventional extension of a file name — the
final dot-separated segment (lowercased, with its dot) when the name
contains a dot, and no extension at all for a dotless name.  This is the
reading of "the file name's extension" the claim quantifies over; the
source has no such function, it inlines `split('.').pop()`. -/
def specExtension (name : JStr) : Option JStr :=
  if '.' ∈ name then
    some ('.' :: ((jsSplit '.' name).getLastD []).map Char.toLower)
  else
    none

lemma partitionFiles_eq (files : List JsFile) :
    partitionFiles files =
      (files.filter validFile,
       (files.filter fun f => !(validFile f)).map fileIssue) := by
  induction files with
  | nil => rfl
  | cons f fs ih =>
      by_cases h : validFile f
      · simp [partitionFiles, h, ih, List.filter_cons]
      · simp [partitionFiles, h, ih, List.filter_cons]

/-- C2 counterexample: a 5-byte file named `pdf` (no dot, hence no
extension in the conventional sense) is nevertheless included in the upload
request, because `split('.').pop()` returns the whole dotless name and the
code prefixes a dot — so the claim that only files whose name's extension
lies in the allow-list are uploaded fails. -/
theorem C2_counterexample :
    (handleFiles [{ name := ['p', 'd', 'f'], size := 5 }]).1 =
      some [{ name := ['p', 'd', 'f'], size := 5 }] ∧
    specExtension ['p', 'd', 'f'] = none := by
  refine ⟨?_, ?_⟩
  · decide
  · decide

/-- C2 amended: the upload request contains exactly the files, in input
order, for which `'.' + lowercase(last dot-segment of name)` is in
`{.pdf,.docx,.txt,.csv,.json}` (for a dotless name the whole name is used
as that segment) and whose size is at most `10 * 1024 * 1024` bytes; every
other file is excluded and reported in the per-file issue list; and when no
file passes both checks no upload request is issued. -/
theorem C2_upload_validation (files : List JsFile) :
    (handleFiles files).1 =
      (if files.filter validFile = [] then none
       else some (files.filter validFile)) ∧
    ((handleFiles files).1.getD []).all validFile = true ∧
    (handleFiles files).2 =
      (files.filter fun f => !(validFile f)).map fileIssue := by
  refine ⟨?_, ?_, ?_⟩
  · cases files with
    | nil => simp [handleFiles]
    | cons f fs =>
        simp only [handleFiles, List.isEmpty_cons, Bool.false_eq_true,
          if_false, partitionFiles_eq, List.isEmpty_iff]
  · cases files with
    | nil => simp [handleFiles]
    | cons f fs =>
        simp only [handleFiles, List.isEmpty_cons, Bool.false_eq_true,
          if_false, partitionFiles_eq, List.isEmpty_iff]
        by_cases h : (f :: fs).filter validFile = []
        · simp [h]
        · simp only [h, if_false, Option.getD_some]
          rw [List.all_eq_true]
          intro x hx
          exact (List.mem_filter.mp hx).2
  · cases files with
    | nil => simp [handleFiles]
    | cons f fs =>
        simp [handleFiles, partitionFiles_eq]

/-! ## Hybrid result classification (ResultsView.renderHybridResults,
ResultsView.js lines 147-168) -/

/-- One item of a hybrid result list: its `source` tag (absent when the
field is missing) and the rest of the record, kept opaque. -/
structure HybridItem where
  source : Option String
  payload : String
deriving DecidableEq, Repr

/-- `data.filter(item => item.source === 'database' || !item.source)`:
membership in the database bucket uses JS truthiness, so a missing source
and an empty-string source both land here. -/
def databaseResults (data : List HybridItem) : List HybridItem :=
  data.filter fun item =>
    decide (item.source = some "database") || !(jsTruthyStr item.source)

/-- `data.filter(item => item.source === 'document')`. -/
def documentResults (data : List HybridItem) : List HybridItem :=
  data.filter fun item => decide (item.source = some "document")

lemma databaseResults_pred (o : Option String) :
    (decide (o = some "database") || !(jsTruthyStr o)) = true ↔
      (o = some "database" ∨ o = none ∨ o = some "") := by
  cases o with
  | none => simp [jsTruthyStr]
  | some s =>
      by_cases h : s = "database"
      · simp [jsTruthyStr, h]
      · by_cases h2 : s = ""
        · simp [jsTruthyStr, h, h2]
        · simp [jsTruthyStr, h, h2]

lemma mem_databaseResults (data : List HybridItem) (i : HybridItem) :
    i ∈ databaseResults data ↔
      i ∈ data ∧ (i.source = some "database" ∨ i.source = none ∨
        i.source = some "") := by
  rw [databaseResults, List.mem_filter, databaseResults_pred]

lemma mem_documentResults (data : List HybridItem) (i : HybridItem) :
    i ∈ documentResults data ↔ i ∈ data ∧ i.source = some "document" := by
  rw [documentResults, List.mem_filter]
  simp

/-- C5 counterexample: an item whose `source` field is present but equal to
the empty string is placed in the database bucket, although its source
neither equals "database" nor is missing — so the claimed exact
characterization of the database bucket fails. -/
theorem C5_counterexample :
    databaseResults [{ source := some "", payload := "row" }] =
      [{ source := some "", payload := "row" }] ∧
    (some "" : Option String) ≠ some "database" ∧
    (some "" : Option String) ≠ none := by
  refine ⟨?_, by decide, by decide⟩
  decide

/-- C5 amended: the database bucket holds exactly the input items whose
`source` is "database", missing, or the (falsy) empty string; the document
bucket holds exactly the items whose `source` is "document"; and each
bucket preserves the input's relative order (it is a sublist of the
input). -/
theorem C5_hybrid_partition (data : List HybridItem) (i : HybridItem) :
    (i ∈ databaseResults data ↔
      i ∈ data ∧ (i.source = some "database" ∨ i.source = none ∨
        i.source = some "")) ∧
    (i ∈ documentResults data ↔ i ∈ data ∧ i.source = some "document") ∧
    (databaseResults data).Sublist data ∧
    (documentResults data).Sublist data :=
  ⟨mem_databaseResults data i, mem_documentResults data i,
   List.filter_sublist data, List.filter_sublist data⟩

/-- C10 counterexample: an item with the present-but-empty source `""` is
neither "database" nor "document", yet it is not dropped — it lands in the
database bucket — so the claim that every present-but-unrecognized source
is silently dropped fails on falsy sources. -/
theorem C10_counterexample :
    ({ source := some "", payload := "row" } : HybridItem) ∈
      databaseResults [{ source := some "", payload := "row" }] ∧
    (some "" : Option String) ≠ some "database" ∧
    (some "" : Option String) ≠ some "document" ∧
    (some "" : Option String) ≠ none := by
  refine ⟨?_, by decide, by decide, by decide⟩
  decide

/-- C10 amended: an item whose `source` is present, non-empty (truthy) and
neither "database" nor "document" is placed in neither bucket, so it is
silently dropped from the rendered output; consequently the two buckets
together can cover strictly fewer items than the input (witnessed by a
one-item list with source "web"). -/
theorem C10_hybrid_drops_unknown_sources (data : List HybridItem)
    (i : HybridItem) (s : String) (hsrc : i.source = some s) (hne : s ≠ "")
    (h1 : s ≠ "database") (h2 : s ≠ "document") :
    i ∉ databaseResults data ∧ i ∉ documentResults data ∧
    (databaseResults [{ source := some "web", payload := "row" }]).length +
        (documentResults [{ source := some "web", payload := "row" }]).length <
      ([{ source := some "web", payload := "row" }] : List HybridItem).length := by
  refine ⟨?_, ?_, by decide⟩
  · intro hmem
    rcases ((mem_databaseResults data i).mp hmem).2 with h | h | h
    · exact h1 (by rw [hsrc] at h; exact Option.some.inj h)
    · rw [hsrc] at h; exact Option.noConfusion h
    · exact hne (by rw [hsrc] at h; exact Option.some.inj h)
  · intro hmem
    have := ((mem_documentResults data i).mp hmem).2
    rw [hsrc] at this
    exact h2 (Option.some.inj this)

/-- C10 witness: the amended theorem applied to a concrete item with source
"web". -/
theorem C10_hybrid_drops_unknown_sources_witness :
    ({ source := some "web", payload := "row" } : HybridItem) ∉
      databaseResults [{ source := some "web", payload := "row" }] :=
  (C10_hybrid_drops_unknown_sources
    [{ source := some "web", payload := "row" }]
    { source := some "web", payload := "row" } "web"
    rfl (by decide) (by decide) (by decide)).1

/-! ## Help rendering (ResultsView.renderHelpMessage, ResultsView.js lines
170-187, dispatched from line 439) -/

/-- One advisory record of a `help` result. -/
structure HelpRec where
  message : String
  suggestions : Option (List String)
deriving DecidableEq, Repr

/-- What a rendered help panel displays. -/
structure HelpView where
  message : String
  suggestions : List String
deriving DecidableEq, Repr

/-- `ResultsView.renderHelpMessage`: reads `data[0].message`
unconditionally, so on an empty list the property access faults (`none`);
the `data[0].suggestions && ...` guard renders no suggestions when the
field is absent. -/
def renderHelpMessage (data : List HelpRec) : Option HelpView :=
  match data with
  | [] => none
  | r :: _ => some { message := r.message, suggestions := r.suggestions.getD [] }

/-- C9: rendering a help payload is total exactly under the precondition
that the results list is non-empty: on `{queryType: help, results: []}` the
renderer faults instead of producing a displayable value, and on any
non-empty list it produces the view built from the first record, so the
faulting access is unreachable. -/
theorem C9_help_render_partiality (data : List HelpRec) (h : data ≠ []) :
    renderHelpMessage [] = none ∧
    renderHelpMessage data =
      some { message := (data.headD { message := "", suggestions := none }).message,
             suggestions :=
               (data.headD { message := "", suggestions := none }).suggestions.getD [] } ∧
    (renderHelpMessage data).isSome = true := by
  refine ⟨rfl, ?_, ?_⟩
  · cases data with
    | nil => exact absurd rfl h
    | cons r rest => rfl
  · cases data with
    | nil => exact absurd rfl h
    | cons r rest => rfl

/-- C9 witness: the theorem applied to a concrete one-record help payload. -/
theorem C9_help_render_partiality_witness :
    renderHelpMessage [{ message := "Try a simpler query", suggestions := none }] =
      some { message := "Try a simpler query", suggestions := [] } :=
  (C9_help_render_partiality
    [{ message := "Try a simpler query", suggestions := none }]
    (by simp)).2.1

/-! ## CSV export (ResultsView.exportToCSV, ResultsView.js lines 20-37) -/

/-- A cell value of a tabular result row.  `vnull` stands for JS
`null`/`undefined`, which `Array.prototype.join` renders as the empty
string. -/
inductive CellValue
  | vstr (s : JStr)
  | vnum (n : Int)
  | vnull
deriving DecidableEq, Repr

/-- A row record: its fields in `Object.keys` order. -/
abbrev Row := List (JStr × CellValue)

/-- `row[header]`: `none` when the row has no such field (JS `undefined`). -/
def lookupField (row : Row) (k : JStr) : Option CellValue :=
  (row.find? fun kv => kv.1 == k).map fun kv => kv.2

/-- How one mapped cell ends up in the joined line:
`typeof value === 'string' && value.includes(',') ? `"${value}"` : value`,
then `Array.prototype.join` stringification (numbers in decimal,
null/undefined as the empty string).  Embedded quotes and newlines are left
untouched. -/
def encodeCell (v : Option CellValue) : JStr :=
  match v with
  | some (.vstr s) => if ',' ∈ s then '"' :: (s ++ ['"']) else s
  | some (.vnum n) => (toString n).data
  | some .vnull => []
  | none => []

/-- The line list `[headers.join(','), ...data.map(row =>
headers.map(...).join(','))]` of `exportToCSV`, with
`headers = Object.keys(data[0])` taken from the first row only and reused
for every row; an empty row set returns without building anything. -/
def csvLines (data : List Row) : List JStr :=
  match data with
  | [] => []
  | first :: _ =>
      List.intercalate [','] (first.map fun kv => kv.1) ::
        data.map fun row =>
          List.intercalate [',']
            ((first.map fun kv => kv.1).map fun h =>
              encodeCell (lookupField row h))

/-- `exportToCSV`'s final string: the lines joined with a newline. -/
def exportToCSV (data : List Row) : JStr :=
  List.intercalate ['\n'] (csvLines data)

/-- C6 counterexample: for the one-row input whose row has no fields, the
header line is empty and splitting it by the delimiter yields `[""]`, not
the row's (empty) key sequence — so the unconditional header round-trip
claim fails on a first row with no keys. -/
theorem C6_counterexample :
    jsSplit ',' ((csvLines [([] : Row)]).headD []) = [[]] ∧
    (([] : Row).map fun kv => kv.1) = ([] : List JStr) ∧
    ([[]] : List JStr) ≠ ([] : List JStr) := by
  refine ⟨by decide, rfl, by decide⟩

/-- C6 amended: the header line is derived from the keys of the first row
only and that same header list indexes every data row; a string value
containing the delimiter is wrapped in double quotes while any other string
value (embedded quotes or newlines included) is emitted verbatim, with no
escaping; and provided the first row has at least one key and no key
contains the delimiter, splitting the produced header line by the delimiter
recovers the original key sequence in order. -/
theorem C6_export_header_roundtrip (first : Row) (rest : List Row)
    (s : JStr) (n : Int)
    (hne : first.map (fun kv => kv.1) ≠ [])
    (hk : ∀ k ∈ first.map fun kv => kv.1, ',' ∉ k) :
    csvLines (first :: rest) =
      List.intercalate [','] (first.map fun kv => kv.1) ::
        (first :: rest).map (fun row =>
          List.intercalate [',']
            ((first.map fun kv => kv.1).map fun h =>
              encodeCell (lookupField row h))) ∧
    (',' ∈ s → encodeCell (some (.vstr s)) = '"' :: (s ++ ['"'])) ∧
    (',' ∉ s → encodeCell (some (.vstr s)) = s) ∧
    encodeCell (some (.vnum n)) = (toString n).data ∧
    jsSplit ',' ((csvLines (first :: rest)).headD []) =
      first.map fun kv => kv.1 := by
  refine ⟨rfl, ?_, ?_, rfl, ?_⟩
  · intro h
    simp [encodeCell, h]
  · intro h
    simp [encodeCell, h]
  · rw [csvLines]
    exact jsSplit_intercalate ',' _ hne hk

/-- C6 witness: the amended theorem applied to a concrete two-column row
whose string cell contains the delimiter. -/
theorem C6_export_header_roundtrip_witness :
    jsSplit ','
        ((csvLines [[(['a'], .vstr ['x', ',', 'y']), (['b'], .vnum 2)]]).headD []) =
      [['a'], ['b']] :=
  (C6_export_header_roundtrip
    [(['a'], .vstr ['x', ',', 'y']), (['b'], .vnum 2)] []
    ['x', ',', 'y'] 2 (by decide) (by decide)).2.2.2.2
